import Mathlib

/-!
Shallow embedding of the fee-estimation core of `cartridge-gg/pathfinder`
(`crates/rpc/src/v05/method/estimate_fee.rs` and `crates/rpc/src/dto/fee.rs`),
together with proofs about the embedded definitions.

Modelling conventions:
* `anyhow::Error` values are modelled as `String` (the pipeline never inspects
  them, only wraps them with context strings).
* field elements (`Felt`), `U256` values, chain ids and contract addresses are
  modelled as `Nat`; no arithmetic is performed on them by this core.
* fallible Rust calls returning `Result` become `Except`.
* the external collaborators (chain store, pending data, transaction mapper,
  execution engine) are supplied as explicit function-valued fields of an
  environment record, mirroring the narrow contracts in the spec.
-/

/-- `anyhow`'s `.context(c)`: wraps an error message with a context prefix. -/
def anyhowContext (c : String) (e : String) : String := c ++ ": " ++ e

/-- `pathfinder_common::BlockId` (enum used by the RPC input). -/
inductive BlockId
  | Number (n : Nat)
  | Hash (h : Nat)
  | Latest
  | Pending
deriving DecidableEq, Repr

/-- The storage-layer block id. Modelled from the spec: the conversion target
of the `try_into` at the call site in `estimate_fee` lives in the storage
crate, which is outside the excerpt; per the call-site expect message, the
only `BlockId` variant with no storage counterpart is `Pending`. -/
inductive StorageBlockId
  | Number (n : Nat)
  | Hash (h : Nat)
  | Latest
deriving DecidableEq, Repr

/-- Modelled from the spec: `TryFrom<BlockId> for pathfinder_storage::BlockId`
(outside the excerpt); every concrete id converts, `Pending` does not. -/
def blockIdTryIntoStorage : BlockId → Option StorageBlockId
  | BlockId.Number n => some (StorageBlockId.Number n)
  | BlockId.Hash h => some (StorageBlockId.Hash h)
  | BlockId.Latest => some StorageBlockId.Latest
  | BlockId.Pending => none

/-- `EstimateFeeError` (estimate_fee.rs lines 17-24); `anyhow::Error` payloads
are modelled as `String`. -/
inductive EstimateFeeError
  | Internal (cause : String)
  | Custom (cause : String)
  | BlockNotFound
  | ContractNotFound
  | ContractErrorV05 (revert_error : String)
deriving DecidableEq, Repr

/-- `From<anyhow::Error> for EstimateFeeError` (estimate_fee.rs lines 26-30). -/
def EstimateFeeError.ofAnyhow (e : String) : EstimateFeeError :=
  EstimateFeeError.Internal e

namespace PathfinderExec

/-- `pathfinder_executor::TransactionExecutionError`. Modelled from the spec:
the executor crate is outside the excerpt; the variants are those matched in
estimate_fee.rs lines 32-49: a per-transaction `ExecutionError` carrying the
batch index and a displayable error, plus `Internal` and `Custom` causes. -/
inductive TransactionExecutionError
  | ExecutionError (transaction_index : Nat) (error : String)
  | Internal (e : String)
  | Custom (e : String)
deriving DecidableEq, Repr

/-- `pathfinder_executor::types::PriceUnit`. Modelled from the spec: the
executor crate is outside the excerpt; the two variants are the ones matched
in dto/fee.rs lines 47-50. -/
inductive PriceUnit
  | Wei
  | Fri
deriving DecidableEq, Repr

/-- `pathfinder_executor::types::FeeEstimate` (the raw engine estimate).
Modelled from the spec: the executor crate is outside the excerpt. The spec's
data model lists the split l1/l2/data-gas fields, `overall_fee` and `unit`
(read by dto/fee.rs); the v05 conversion (estimate_fee.rs lines 86-94)
additionally reads aggregate `gas_consumed` and `gas_price` fields. -/
structure FeeEstimate where
  gas_consumed : Nat
  gas_price : Nat
  l1_gas_consumed : Nat
  l1_gas_price : Nat
  l1_data_gas_consumed : Nat
  l1_data_gas_price : Nat
  l2_gas_consumed : Nat
  l2_gas_price : Nat
  overall_fee : Nat
  unit : PriceUnit
deriving DecidableEq, Repr

end PathfinderExec

/-- `From<pathfinder_executor::TransactionExecutionError> for EstimateFeeError`
(estimate_fee.rs lines 32-49); the `format!` string is realised by literal
concatenation with `Nat.repr` for the index. -/
def EstimateFeeError.ofTransactionExecutionError :
    PathfinderExec.TransactionExecutionError → EstimateFeeError
  | PathfinderExec.TransactionExecutionError.ExecutionError transaction_index error =>
      EstimateFeeError.ContractErrorV05
        ("Execution error at transaction index " ++ Nat.repr transaction_index ++
          ": " ++ error)
  | PathfinderExec.TransactionExecutionError.Internal e => EstimateFeeError.Internal e
  | PathfinderExec.TransactionExecutionError.Custom e => EstimateFeeError.Custom e

/-- `crate::executor::ExecutionStateError` (matched in estimate_fee.rs
lines 51-59). -/
inductive ExecutionStateError
  | BlockNotFound
  | Internal (e : String)
deriving DecidableEq, Repr

/-- `From<crate::executor::ExecutionStateError> for EstimateFeeError`
(estimate_fee.rs lines 51-59). -/
def EstimateFeeError.ofExecutionStateError : ExecutionStateError → EstimateFeeError
  | ExecutionStateError.BlockNotFound => EstimateFeeError.BlockNotFound
  | ExecutionStateError.Internal e => EstimateFeeError.Internal e

/-- `crate::error::ApplicationError` (the wire-level error set), restricted to
the five variants produced by this method's mapping (estimate_fee.rs
lines 61-73). -/
inductive ApplicationError
  | BlockNotFound
  | ContractNotFound
  | ContractErrorV05 (revert_error : String)
  | Internal (e : String)
  | Custom (e : String)
deriving DecidableEq, Repr

/-- `From<EstimateFeeError> for ApplicationError` (estimate_fee.rs
lines 61-73). -/
def ApplicationError.ofEstimateFeeError : EstimateFeeError → ApplicationError
  | EstimateFeeError.BlockNotFound => ApplicationError.BlockNotFound
  | EstimateFeeError.ContractNotFound => ApplicationError.ContractNotFound
  | EstimateFeeError.ContractErrorV05 revert_error =>
      ApplicationError.ContractErrorV05 revert_error
  | EstimateFeeError.Internal e => ApplicationError.Internal e
  | EstimateFeeError.Custom e => ApplicationError.Custom e

namespace Dto

/-- `crate::dto::RpcVersion`. Modelled from the spec: an ordered enumeration of
protocol versions around the `V08` wire-shape switch. -/
inductive RpcVersion
  | V05
  | V06
  | V07
  | V08
deriving DecidableEq, Repr

/-- Numeric rank realising the total order on `RpcVersion`. -/
def RpcVersion.toNat : RpcVersion → Nat
  | RpcVersion.V05 => 5
  | RpcVersion.V06 => 6
  | RpcVersion.V07 => 7
  | RpcVersion.V08 => 8

/-- `a >= b` on protocol versions. -/
def RpcVersion.ge (a b : RpcVersion) : Bool := b.toNat ≤ a.toNat

/-- A serialized JSON-ish value produced by the version-aware serializer.
`u256` keeps the numeric value; its hex rendering is done by `U256Hex`
outside the excerpt and is irrelevant to the field-shape claims. -/
inductive SerializedValue
  | str (s : String)
  | u256 (n : Nat)
  | obj (fields : List (String × SerializedValue))

/-- `crate::dto::serialize::Serializer`: carries the negotiated version. -/
structure Serializer where
  version : RpcVersion

/-- The in-progress struct serializer returned by `serialize_struct`. -/
structure SerializeStruct where
  version : RpcVersion
  fields : List (String × SerializedValue)

/-- `Serializer::serialize_struct`. -/
def Serializer.serialize_struct (s : Serializer) : Except String SerializeStruct :=
  Except.ok (SerializeStruct.mk s.version [])

/-- `SerializeStruct::serialize_field`: appends one named field. -/
def SerializeStruct.serialize_field (s : SerializeStruct) (name : String)
    (v : SerializedValue) : Except String SerializeStruct :=
  Except.ok (SerializeStruct.mk s.version (s.fields ++ [(name, v)]))

/-- `SerializeStruct::end`. -/
def SerializeStruct.finish (s : SerializeStruct) : Except String SerializedValue :=
  Except.ok (SerializedValue.obj s.fields)

/-- `U256Hex`'s serialization, keeping the numeric value. -/
def u256Hex (n : Nat) : SerializedValue := SerializedValue.u256 n

/-- `SerializeForVersion for PriceUnit` (dto/fee.rs lines 42-52). -/
def serializePriceUnit (u : PathfinderExec.PriceUnit) : SerializedValue :=
  SerializedValue.str
    (match u with
      | PathfinderExec.PriceUnit.Wei => "WEI"
      | PathfinderExec.PriceUnit.Fri => "FRI")

/-- `SerializeForVersion for FeeEstimate` (dto/fee.rs lines 6-37): the
version-aware serializer for a raw engine estimate. -/
def serializeFeeEstimate (fe : PathfinderExec.FeeEstimate) (s : Serializer) :
    Except String SerializedValue := do
  let st ← s.serialize_struct
  if st.version.ge RpcVersion.V08 then
    let st ← st.serialize_field "l1_gas_consumed" (u256Hex fe.l1_gas_consumed)
    let st ← st.serialize_field "l1_gas_price" (u256Hex fe.l1_gas_price)
    let st ← st.serialize_field "l1_data_gas_consumed" (u256Hex fe.l1_data_gas_consumed)
    let st ← st.serialize_field "l1_data_gas_price" (u256Hex fe.l1_data_gas_price)
    let st ← st.serialize_field "l2_gas_consumed" (u256Hex fe.l2_gas_consumed)
    let st ← st.serialize_field "l2_gas_price" (u256Hex fe.l2_gas_price)
    let st ← st.serialize_field "overall_fee" (u256Hex fe.overall_fee)
    let st ← st.serialize_field "unit" (serializePriceUnit fe.unit)
    st.finish
  else
    let st ← st.serialize_field "gas_price" (u256Hex fe.l1_gas_price)
    let st ← st.serialize_field "gas_consumed" (u256Hex fe.l1_gas_consumed)
    let st ← st.serialize_field "data_gas_consumed" (u256Hex fe.l1_data_gas_consumed)
    let st ← st.serialize_field "data_gas_price" (u256Hex fe.l1_data_gas_price)
    let st ← st.serialize_field "overall_fee" (u256Hex fe.overall_fee)
    let st ← st.serialize_field "unit" (serializePriceUnit fe.unit)
    st.finish

end Dto

namespace V05

/-- The v0.5 method's public `FeeEstimate` (estimate_fee.rs lines 75-84):
three `U256` fields only. -/
structure FeeEstimate where
  gas_consumed : Nat
  gas_price : Nat
  overall_fee : Nat
deriving DecidableEq, Repr

/-- `From<pathfinder_executor::types::FeeEstimate> for FeeEstimate`
(estimate_fee.rs lines 86-94). -/
def FeeEstimate.ofExecutor (value : PathfinderExec.FeeEstimate) : FeeEstimate :=
  FeeEstimate.mk value.gas_consumed value.gas_price value.overall_fee

end V05

/-- A database connection handle (opaque). -/
structure DbConnection where
  id : Nat
deriving DecidableEq, Repr

/-- A database transaction handle (opaque). -/
structure DbTx where
  id : Nat
deriving DecidableEq, Repr

/-- A block header. Modelled from the spec: the header type lives in
`pathfinder_common`, outside the excerpt; this core treats it as opaque data
resolved from the store or the pending overlay. -/
structure Header where
  number : Nat
  hash : Nat
deriving DecidableEq, Repr

/-- A pending state update (opaque to this core). -/
structure StateUpdate where
  id : Nat
deriving DecidableEq, Repr

/-- The pending overlay (`context.pending_data.get(&db)`): a synthetic header
plus the overlay's state diff. -/
structure PendingData where
  header : Header
  state_update : StateUpdate
deriving DecidableEq, Repr

/-- `L1BlobDataAvailability` (imported from `pathfinder_executor`). -/
inductive L1BlobDataAvailability
  | Disabled
  | Enabled
deriving DecidableEq, Repr

/-- An executable transaction, the output of
`crate::executor::map_broadcasted_transaction` (opaque to this core). -/
structure ExecutableTx where
  id : Nat
deriving DecidableEq, Repr

/-- `pathfinder_executor::ExecutionState` restricted to what
`ExecutionState::simulation` records (estimate_fee.rs lines 130-137). -/
structure ExecutionState where
  db : DbTx
  chain_id : Nat
  header : Header
  pending : Option StateUpdate
  l1_blob_data_availability : L1BlobDataAvailability
  custom_versioned_constants : Option Nat
deriving DecidableEq, Repr

/-- `ExecutionState::simulation(&db, chain_id, header, pending, mode, consts)`. -/
def ExecutionState.simulation (db : DbTx) (chain_id : Nat) (header : Header)
    (pending : Option StateUpdate) (mode : L1BlobDataAvailability)
    (custom_versioned_constants : Option Nat) : ExecutionState :=
  ExecutionState.mk db chain_id header pending mode custom_versioned_constants

/-- Wire-format broadcasted transaction, v02 request types. Modelled from the
spec: the v02 request types are outside the excerpt; the model carries the
Invoke V0/V1 variants exercised by the source's tests with all their fields
(version word with the query bit preserved, fee, signature, addresses,
calldata), felts as `Nat`. -/
structure BroadcastedInvokeTransactionV0 where
  version : Nat
  max_fee : Nat
  signature : List Nat
  contract_address : Nat
  entry_point_selector : Nat
  calldata : List Nat
deriving DecidableEq, Repr

/-- Invoke V1 wire transaction (see `BroadcastedInvokeTransactionV0`). -/
structure BroadcastedInvokeTransactionV1 where
  version : Nat
  max_fee : Nat
  signature : List Nat
  nonce : Nat
  sender_address : Nat
  calldata : List Nat
deriving DecidableEq, Repr

/-- `BroadcastedInvokeTransaction`: version-tagged invoke union. -/
inductive BroadcastedInvokeTransaction
  | V0 (t : BroadcastedInvokeTransactionV0)
  | V1 (t : BroadcastedInvokeTransactionV1)
deriving DecidableEq, Repr

/-- `BroadcastedTransaction`: type-tagged union of wire transactions (the
model carries the Invoke family; see `BroadcastedInvokeTransactionV0`). -/
inductive BroadcastedTransaction
  | Invoke (t : BroadcastedInvokeTransaction)
deriving DecidableEq, Repr

/-- `EstimateFeeInput` (estimate_fee.rs lines 10-15). -/
structure EstimateFeeInput where
  request : List BroadcastedTransaction
  block_id : BlockId
deriving DecidableEq, Repr

/-- Outcome of a step running inside the offloaded worker closure: a normal
`Result`, or a panic that tokio surfaces as a `JoinError` at the `.await`. -/
inductive WorkerStep (α : Type)
  | ok (a : α)
  | err (e : EstimateFeeError)
  | panicked (msg : String)
deriving DecidableEq, Repr

/-- The environment of one `estimate_fee` call: the `RpcContext` fields it
reads plus the external collaborators (chain store, pending data, transaction
mapper, execution engine) under the narrow contracts the spec fixes for them.
`spawn_panic` models a crash-equivalent failure of the offloaded task (spec
section 5): when set, the task fails with that panic message. -/
structure Env where
  connection : Except String DbConnection
  transaction : DbConnection → Except String DbTx
  pending_get : DbTx → Except String PendingData
  block_header : DbTx → StorageBlockId → Except String (Option Header)
  map_broadcasted_transaction :
    BroadcastedTransaction → Nat → Except EstimateFeeError ExecutableTx
  estimate : ExecutionState → List ExecutableTx → Bool → Bool →
    Except PathfinderExec.TransactionExecutionError (List PathfinderExec.FeeEstimate)
  chain_id : Nat
  custom_versioned_constants : Option Nat
  spawn_panic : Option String

/-- Block resolution (estimate_fee.rs lines 110-128): `Pending` uses the
pending overlay's header and state diff; a concrete id is cast to the storage
id (the `expect` on a failed cast is a panic) and looked up, `BlockNotFound`
when absent. -/
def resolve_block (env : Env) (db : DbTx) (block_id : BlockId) :
    WorkerStep (Header × Option StateUpdate) :=
  match block_id with
  | BlockId.Pending =>
      match env.pending_get db with
      | Except.error e =>
          WorkerStep.err (EstimateFeeError.ofAnyhow (anyhowContext "Querying pending data" e))
      | Except.ok pending =>
          WorkerStep.ok (pending.header, some pending.state_update)
  | other =>
      match blockIdTryIntoStorage other with
      | none => WorkerStep.panicked "Only pending cast should fail"
      | some block_id =>
          match env.block_header db block_id with
          | Except.error e =>
              WorkerStep.err
                (EstimateFeeError.ofAnyhow (anyhowContext "Querying block header" e))
          | Except.ok none => WorkerStep.err EstimateFeeError.BlockNotFound
          | Except.ok (some header) => WorkerStep.ok (header, none)

/-- The `.map(..).collect::<Result<Vec<_>, _>>()` over the request
(estimate_fee.rs lines 139-143): fail-fast, order-preserving mapping of each
broadcasted transaction through the external mapper. -/
def mapBatch (env : Env) : List BroadcastedTransaction →
    Except EstimateFeeError (List ExecutableTx)
  | [] => Except.ok []
  | tx :: rest =>
    match env.map_broadcasted_transaction tx env.chain_id with
    | Except.error e => Except.error e
    | Except.ok t =>
      match mapBatch env rest with
      | Except.error e => Except.error e
      | Except.ok ts => Except.ok (t :: ts)

/-- One recorded invocation of `pathfinder_executor::estimate`. -/
structure EngineCall where
  state : ExecutionState
  transactions : List ExecutableTx
  skip_validation : Bool
  skip_nonce_check : Bool
deriving DecidableEq, Repr

/-- The closure offloaded via `spawn_blocking` (estimate_fee.rs
lines 102-154), instrumented with the list of engine invocations it performs.
The third argument of `pathfinder_executor::estimate` is the literal `false`
and the fourth the literal `true` of the source (its comment: skip nonce
check because it is not necessary for fee estimation). -/
def worker (env : Env) (input : EstimateFeeInput) :
    WorkerStep (List PathfinderExec.FeeEstimate) × List EngineCall :=
  match env.connection with
  | Except.error e =>
      (WorkerStep.err (EstimateFeeError.ofAnyhow
        (anyhowContext "Creating database connection" e)), [])
  | Except.ok conn =>
    match env.transaction conn with
    | Except.error e =>
        (WorkerStep.err (EstimateFeeError.ofAnyhow
          (anyhowContext "Creating database transaction" e)), [])
    | Except.ok db =>
      match resolve_block env db input.block_id with
      | WorkerStep.err e => (WorkerStep.err e, [])
      | WorkerStep.panicked m => (WorkerStep.panicked m, [])
      | WorkerStep.ok (header, pending) =>
        let state := ExecutionState.simulation db env.chain_id header pending
          L1BlobDataAvailability.Disabled env.custom_versioned_constants
        match mapBatch env input.request with
        | Except.error e => (WorkerStep.err e, [])
        | Except.ok transactions =>
          let call := EngineCall.mk state transactions false true
          match env.estimate state transactions false true with
          | Except.error e =>
              (WorkerStep.err (EstimateFeeError.ofTransactionExecutionError e), [call])
          | Except.ok result => (WorkerStep.ok result, [call])

/-- `estimate_fee` (estimate_fee.rs lines 96-159): offloads the worker, awaits
it (a panic of the task surfaces as a `JoinError`, wrapped by
`.context("Executing transaction")` and folded through `From<anyhow::Error>`
into `Internal`), then maps each raw estimate into the v0.5 `FeeEstimate`. -/
def estimate_fee (env : Env) (input : EstimateFeeInput) :
    Except EstimateFeeError (List V05.FeeEstimate) :=
  let joined : WorkerStep (List PathfinderExec.FeeEstimate) :=
    match env.spawn_panic with
    | some m => WorkerStep.panicked m
    | none => (worker env input).1
  match joined with
  | WorkerStep.panicked m =>
      Except.error (EstimateFeeError.ofAnyhow (anyhowContext "Executing transaction" m))
  | WorkerStep.err e => Except.error e
  | WorkerStep.ok result => Except.ok (result.map V05.FeeEstimate.ofExecutor)

/-- A JSON value (the parameter payload of the RPC method). -/
inductive Json
  | str (s : String)
  | num (n : Nat)
  | arr (xs : List Json)
  | obj (fields : List (String × Json))
  | null

/-- Value of one hex digit, if the character is one. -/
def hexDigitVal (c : Char) : Option Nat :=
  if '0' ≤ c ∧ c ≤ '9' then some (c.toNat - '0'.toNat)
  else if 'a' ≤ c ∧ c ≤ 'f' then some (c.toNat - 'a'.toNat + 10)
  else if 'A' ≤ c ∧ c ≤ 'F' then some (c.toNat - 'A'.toNat + 10)
  else none

/-- Left fold of hex digits into a number, failing on a non-digit. -/
def hexCharsVal : List Char → Nat → Option Nat
  | [], acc => some acc
  | c :: rest, acc =>
    match hexDigitVal c with
    | none => none
    | some d => hexCharsVal rest (acc * 16 + d)

/-- Modelled from the spec: felt / U256 decoding from a `0x`-prefixed hex
string (the serde helpers live outside the excerpt). -/
def decodeFelt (s : String) : Except String Nat :=
  match s.data with
  | '0' :: 'x' :: [] => Except.error "empty hex value"
  | '0' :: 'x' :: cs =>
    match hexCharsVal cs 0 with
    | some n => Except.ok n
    | none => Except.error "invalid hex digit"
  | _ => Except.error "missing 0x prefix"

/-- Modelled from the spec: `BlockId` decoding; accepted encodings are
the objects with one `block_number` or `block_hash` field and the strings
`latest` and `pending` (spec section 6). -/
def decodeBlockId : Json → Except String BlockId
  | Json.str s =>
    if s = "latest" then Except.ok BlockId.Latest
    else if s = "pending" then Except.ok BlockId.Pending
    else Except.error "invalid block id tag"
  | Json.obj [(k, v)] =>
    if k = "block_number" then
      match v with
      | Json.num n => Except.ok (BlockId.Number n)
      | _ => Except.error "invalid block number"
    else if k = "block_hash" then
      match v with
      | Json.str h =>
        match decodeFelt h with
        | Except.ok n => Except.ok (BlockId.Hash n)
        | Except.error e => Except.error e
      | _ => Except.error "invalid block hash"
    else Except.error "unknown block id field"
  | _ => Except.error "invalid block id"

/-- Field lookup in a decoded JSON object. -/
def jsonField (fields : List (String × Json)) (name : String) : Option Json :=
  List.lookup name fields

/-- Decode a felt-valued field. -/
def decodeFeltField (fields : List (String × Json)) (name : String) :
    Except String Nat :=
  match jsonField fields name with
  | some (Json.str s) => decodeFelt s
  | _ => Except.error ("missing or invalid field " ++ name)

/-- Decode a list of felt-valued hex strings. -/
def decodeFeltList : List Json → Except String (List Nat)
  | [] => Except.ok []
  | Json.str s :: rest =>
    match decodeFelt s with
    | Except.error e => Except.error e
    | Except.ok n =>
      match decodeFeltList rest with
      | Except.error e => Except.error e
      | Except.ok ns => Except.ok (n :: ns)
  | _ :: _ => Except.error "expected hex string"

/-- Decode a felt-array field. -/
def decodeFeltListField (fields : List (String × Json)) (name : String) :
    Except String (List Nat) :=
  match jsonField fields name with
  | some (Json.arr xs) => decodeFeltList xs
  | _ => Except.error ("missing or invalid field " ++ name)

/-- The query-only version flag is the bit at position 128 of the version
word; the variant is selected by the version with that flag masked off. -/
def versionWithoutQueryBit (v : Nat) : Nat := v % 2 ^ 128

/-- Decode the body of an `INVOKE` transaction, selecting V0/V1 by the masked
version and storing the unmasked version word (query flag preserved). -/
def decodeInvoke (v : Nat) (fields : List (String × Json)) :
    Except String BroadcastedTransaction :=
  if versionWithoutQueryBit v = 0 then do
    let max_fee ← decodeFeltField fields "max_fee"
    let signature ← decodeFeltListField fields "signature"
    let contract_address ← decodeFeltField fields "contract_address"
    let entry_point_selector ← decodeFeltField fields "entry_point_selector"
    let calldata ← decodeFeltListField fields "calldata"
    Except.ok (BroadcastedTransaction.Invoke (BroadcastedInvokeTransaction.V0
      (BroadcastedInvokeTransactionV0.mk v max_fee signature contract_address
        entry_point_selector calldata)))
  else if versionWithoutQueryBit v = 1 then do
    let max_fee ← decodeFeltField fields "max_fee"
    let signature ← decodeFeltListField fields "signature"
    let nonce ← decodeFeltField fields "nonce"
    let sender_address ← decodeFeltField fields "sender_address"
    let calldata ← decodeFeltListField fields "calldata"
    Except.ok (BroadcastedTransaction.Invoke (BroadcastedInvokeTransaction.V1
      (BroadcastedInvokeTransactionV1.mk v max_fee signature nonce
        sender_address calldata)))
  else Except.error "invalid invoke transaction version"

/-- Modelled from the spec: decoding of one `BroadcastedTransaction`, tagged
by `type` and `version` (spec section 4.2); the model decodes the Invoke
family exercised by the source's tests. -/
def decodeBroadcastedTransaction : Json → Except String BroadcastedTransaction
  | Json.obj fields =>
    match jsonField fields "type" with
    | some (Json.str ty) =>
      if ty = "INVOKE" then
        match jsonField fields "version" with
        | some (Json.str vs) =>
          match decodeFelt vs with
          | Except.error e => Except.error e
          | Except.ok v => decodeInvoke v fields
        | _ => Except.error "missing or invalid version"
      else Except.error "unsupported transaction type"
    | _ => Except.error "missing transaction type"
  | _ => Except.error "expected transaction object"

/-- Decode the ordered request array. -/
def decodeRequest : List Json → Except String (List BroadcastedTransaction)
  | [] => Except.ok []
  | j :: rest =>
    match decodeBroadcastedTransaction j with
    | Except.error e => Except.error e
    | Except.ok tx =>
      match decodeRequest rest with
      | Except.error e => Except.error e
      | Except.ok txs => Except.ok (tx :: txs)

/-- The body decoding both encodings share once `request` and `block_id`
payloads are isolated. -/
def decodeEstimateFeeBody (reqJson blockJson : Json) :
    Except String EstimateFeeInput :=
  match reqJson with
  | Json.arr txs =>
    match decodeRequest txs with
    | Except.error e => Except.error e
    | Except.ok request =>
      match decodeBlockId blockJson with
      | Except.error e => Except.error e
      | Except.ok block_id => Except.ok (EstimateFeeInput.mk request block_id)
  | _ => Except.error "request must be an array"

/-- Modelled from the spec: the parameter decoder for `EstimateFeeInput`
(spec sections 4.2 and 6; the serde machinery realising
`#[serde(deny_unknown_fields)]` of estimate_fee.rs lines 10-15 is outside the
excerpt). A positional array must have exactly two elements; a named object
must contain no field outside `request` and `block_id` and both of them. -/
def decodeEstimateFeeInput : Json → Except String EstimateFeeInput
  | Json.arr [reqJson, blockJson] => decodeEstimateFeeBody reqJson blockJson
  | Json.arr _ => Except.error "wrong number of positional parameters"
  | Json.obj fields =>
    if fields.all (fun f => f.1 == "request" || f.1 == "block_id") then
      match jsonField fields "request", jsonField fields "block_id" with
      | some reqJson, some blockJson => decodeEstimateFeeBody reqJson blockJson
      | _, _ => Except.error "missing field"
    else Except.error "unknown field"
  | _ => Except.error "invalid parameters"

/-! ## Concrete sample data used by witnesses and counterexamples -/

/-- A sample historical header. -/
def sampleHeader : Header := Header.mk 5 77

/-- A sample raw engine estimate. -/
def sampleRawFee : PathfinderExec.FeeEstimate :=
  PathfinderExec.FeeEstimate.mk 1 2 3 4 5 6 7 8 9 PathfinderExec.PriceUnit.Wei

/-- A sample wire transaction. -/
def sampleTx : BroadcastedTransaction :=
  BroadcastedTransaction.Invoke (BroadcastedInvokeTransaction.V1
    (BroadcastedInvokeTransactionV1.mk 1 0 [] 0 0 []))

/-- An environment whose collaborators all succeed; the engine answers one
`sampleRawFee` per transaction. -/
def envOk : Env :=
  Env.mk (Except.ok (DbConnection.mk 0)) (fun _ => Except.ok (DbTx.mk 1))
    (fun _ => Except.ok (PendingData.mk (Header.mk 9 99) (StateUpdate.mk 3)))
    (fun _ _ => Except.ok (some sampleHeader))
    (fun _ _ => Except.ok (ExecutableTx.mk 0))
    (fun _ txs _ _ => Except.ok (txs.map fun _ => sampleRawFee))
    23 none none

/-- A sample request against the latest block. -/
def sampleInput : EstimateFeeInput := EstimateFeeInput.mk [sampleTx] BlockId.Latest

/-- The engine call `worker envOk sampleInput` performs. -/
def sampleCall : EngineCall :=
  EngineCall.mk
    (ExecutionState.simulation (DbTx.mk 1) 23 sampleHeader none
      L1BlobDataAvailability.Disabled none)
    [ExecutableTx.mk 0] false true

/-- `envOk` with a transaction mapper that rejects every transaction. -/
def envMapFail : Env :=
  Env.mk (Except.ok (DbConnection.mk 0)) (fun _ => Except.ok (DbTx.mk 1))
    (fun _ => Except.ok (PendingData.mk (Header.mk 9 99) (StateUpdate.mk 3)))
    (fun _ _ => Except.ok (some sampleHeader))
    (fun _ _ => Except.error (EstimateFeeError.Custom "unsupported transaction variant"))
    (fun _ txs _ _ => Except.ok (txs.map fun _ => sampleRawFee))
    23 none none

/-- `envOk` with no block header matching any id. -/
def envNoHeader : Env :=
  Env.mk (Except.ok (DbConnection.mk 0)) (fun _ => Except.ok (DbTx.mk 1))
    (fun _ => Except.ok (PendingData.mk (Header.mk 9 99) (StateUpdate.mk 3)))
    (fun _ _ => Except.ok none)
    (fun _ _ => Except.ok (ExecutableTx.mk 0))
    (fun _ txs _ _ => Except.ok (txs.map fun _ => sampleRawFee))
    23 none none

/-- `envOk` whose offloaded task fails with a crash-equivalent panic. -/
def envPanics : Env :=
  Env.mk (Except.ok (DbConnection.mk 0)) (fun _ => Except.ok (DbTx.mk 1))
    (fun _ => Except.ok (PendingData.mk (Header.mk 9 99) (StateUpdate.mk 3)))
    (fun _ _ => Except.ok (some sampleHeader))
    (fun _ _ => Except.ok (ExecutableTx.mk 0))
    (fun _ txs _ _ => Except.ok (txs.map fun _ => sampleRawFee))
    23 none (some "worker task panicked")

/-- The concrete invoke transaction JSON of the source's parsing tests. -/
def scenarioTxnJson : Json :=
  Json.obj [("type", Json.str "INVOKE"),
    ("version", Json.str "0x100000000000000000000000000000001"),
    ("max_fee", Json.str "0x6"),
    ("signature", Json.arr [Json.str "0x7"]),
    ("nonce", Json.str "0x8"),
    ("sender_address", Json.str "0xaaa"),
    ("calldata", Json.arr [Json.str "0xff"])]

/-- The block id JSON of the source's parsing tests. -/
def scenarioBlockJson : Json := Json.obj [("block_hash", Json.str "0xabcde")]

/-- The positional-array encoding of the scenario. -/
def scenarioPositional : Json :=
  Json.arr [Json.arr [scenarioTxnJson], scenarioBlockJson]

/-- The named-object encoding of the scenario. -/
def scenarioNamed : Json :=
  Json.obj [("request", Json.arr [scenarioTxnJson]),
    ("block_id", scenarioBlockJson)]

/-- The decoded value both encodings must produce: one Invoke-V1 transaction
whose version word keeps the query bit, and the hash block id. -/
def scenarioExpected : EstimateFeeInput :=
  EstimateFeeInput.mk
    [BroadcastedTransaction.Invoke (BroadcastedInvokeTransaction.V1
      (BroadcastedInvokeTransactionV1.mk (2 ^ 128 + 1) 6 [7] 8 0xaaa [0xff]))]
    (BlockId.Hash 0xabcde)

/-! ## Theorems -/

/-- C3: for every raw fee estimate and every protocol version, the serializer
emits exactly the eight fields `l1_gas_consumed, l1_gas_price,
l1_data_gas_consumed, l1_data_gas_price, l2_gas_consumed, l2_gas_price,
overall_fee, unit` in that order when the version is at least V08, and exactly
the six fields `gas_price` (= l1_gas_price), `gas_consumed`
(= l1_gas_consumed), `data_gas_consumed` (= l1_data_gas_consumed),
`data_gas_price` (= l1_data_gas_price), `overall_fee`, `unit` otherwise; the
unit renders as the literal strings WEI and FRI. -/
theorem fee_estimate_serialize_shape (fe : PathfinderExec.FeeEstimate)
    (v : Dto.RpcVersion) :
    Dto.serializeFeeEstimate fe (Dto.Serializer.mk v) =
      (if Dto.RpcVersion.ge v Dto.RpcVersion.V08 then
        Except.ok (Dto.SerializedValue.obj
          [("l1_gas_consumed", Dto.SerializedValue.u256 fe.l1_gas_consumed),
           ("l1_gas_price", Dto.SerializedValue.u256 fe.l1_gas_price),
           ("l1_data_gas_consumed", Dto.SerializedValue.u256 fe.l1_data_gas_consumed),
           ("l1_data_gas_price", Dto.SerializedValue.u256 fe.l1_data_gas_price),
           ("l2_gas_consumed", Dto.SerializedValue.u256 fe.l2_gas_consumed),
           ("l2_gas_price", Dto.SerializedValue.u256 fe.l2_gas_price),
           ("overall_fee", Dto.SerializedValue.u256 fe.overall_fee),
           ("unit", Dto.serializePriceUnit fe.unit)])
      else
        Except.ok (Dto.SerializedValue.obj
          [("gas_price", Dto.SerializedValue.u256 fe.l1_gas_price),
           ("gas_consumed", Dto.SerializedValue.u256 fe.l1_gas_consumed),
           ("data_gas_consumed", Dto.SerializedValue.u256 fe.l1_data_gas_consumed),
           ("data_gas_price", Dto.SerializedValue.u256 fe.l1_data_gas_price),
           ("overall_fee", Dto.SerializedValue.u256 fe.overall_fee),
           ("unit", Dto.serializePriceUnit fe.unit)])) ∧
    Dto.serializePriceUnit PathfinderExec.PriceUnit.Wei =
      Dto.SerializedValue.str "WEI" ∧
    Dto.serializePriceUnit PathfinderExec.PriceUnit.Fri =
      Dto.SerializedValue.str "FRI" := by
  refine ⟨?_, rfl, rfl⟩
  cases v <;> rfl

/-- C4: the engine-to-taxonomy translation sends a per-transaction execution
failure at index k with message m to the reverted-execution variant whose
message is exactly the formatted string carrying k unchanged, engine Internal
to Internal and engine Custom to Custom; and the taxonomy-to-wire mapping is
total with each of the five variants sent to the application error of the
same kind. -/
theorem error_translation_total :
    (∀ k m, EstimateFeeError.ofTransactionExecutionError
        (PathfinderExec.TransactionExecutionError.ExecutionError k m) =
      EstimateFeeError.ContractErrorV05
        ("Execution error at transaction index " ++ Nat.repr k ++ ": " ++ m)) ∧
    (∀ e, EstimateFeeError.ofTransactionExecutionError
        (PathfinderExec.TransactionExecutionError.Internal e) =
      EstimateFeeError.Internal e) ∧
    (∀ e, EstimateFeeError.ofTransactionExecutionError
        (PathfinderExec.TransactionExecutionError.Custom e) =
      EstimateFeeError.Custom e) ∧
    ApplicationError.ofEstimateFeeError EstimateFeeError.BlockNotFound =
      ApplicationError.BlockNotFound ∧
    ApplicationError.ofEstimateFeeError EstimateFeeError.ContractNotFound =
      ApplicationError.ContractNotFound ∧
    (∀ s, ApplicationError.ofEstimateFeeError (EstimateFeeError.ContractErrorV05 s) =
      ApplicationError.ContractErrorV05 s) ∧
    (∀ e, ApplicationError.ofEstimateFeeError (EstimateFeeError.Internal e) =
      ApplicationError.Internal e) ∧
    (∀ e, ApplicationError.ofEstimateFeeError (EstimateFeeError.Custom e) =
      ApplicationError.Custom e) :=
  ⟨fun _ _ => rfl, fun _ => rfl, fun _ => rfl, rfl, rfl,
    fun _ => rfl, fun _ => rfl, fun _ => rfl⟩

/-- C9: the storage-id conversion fails exactly on `Pending`; since the
`Pending` variant is consumed by the preceding match arm of the block
resolution, the expect-panic branch is unreachable: `resolve_block` never
panics, on any environment and any block id. -/
theorem pending_cast_expect_unreachable :
    (∀ b : BlockId, blockIdTryIntoStorage b = none ↔ b = BlockId.Pending) ∧
    (∀ (env : Env) (db : DbTx) (b : BlockId) (m : String),
      resolve_block env db b ≠ WorkerStep.panicked m) := by
  constructor
  · intro b
    cases b <;> simp [blockIdTryIntoStorage]
  · intro env db b m
    cases b with
    | Pending =>
        simp only [resolve_block]
        cases h : env.pending_get db <;> simp
    | Number n =>
        simp only [resolve_block, blockIdTryIntoStorage]
        cases h : env.block_header db (StorageBlockId.Number n) with
        | error e => simp
        | ok o => cases o <;> simp
    | Hash hsh =>
        simp only [resolve_block, blockIdTryIntoStorage]
        cases h : env.block_header db (StorageBlockId.Hash hsh) with
        | error e => simp
        | ok o => cases o <;> simp
    | Latest =>
        simp only [resolve_block, blockIdTryIntoStorage]
        cases h : env.block_header db StorageBlockId.Latest with
        | error e => simp
        | ok o => cases o <;> simp

/-- C9 witness: the theorem applied at a concrete environment, transaction
handle, block id and panic message. -/
theorem pending_cast_expect_unreachable_witness :
    resolve_block
        (Env.mk (Except.ok (DbConnection.mk 0)) (fun _ => Except.ok (DbTx.mk 0))
          (fun _ => Except.error "no pending")
          (fun _ _ => Except.ok none)
          (fun _ _ => Except.error (EstimateFeeError.Internal "unmapped"))
          (fun _ _ _ _ => Except.ok []) 0 none none)
        (DbTx.mk 0) BlockId.Latest ≠ WorkerStep.panicked "boom" :=
  pending_cast_expect_unreachable.2 _ (DbTx.mk 0) BlockId.Latest "boom"

/-- C10: the v0.5 result type carries exactly the three fields gas_consumed,
gas_price, overall_fee (two values agreeing on them are equal), and the
conversion from a raw engine estimate projects onto exactly those three
fields, so the data-gas figures and the unit never influence it. -/
theorem v05_fee_estimate_projection :
    (∀ a b : V05.FeeEstimate, a.gas_consumed = b.gas_consumed →
      a.gas_price = b.gas_price → a.overall_fee = b.overall_fee → a = b) ∧
    (∀ r : PathfinderExec.FeeEstimate, V05.FeeEstimate.ofExecutor r =
      V05.FeeEstimate.mk r.gas_consumed r.gas_price r.overall_fee) ∧
    (∀ r s : PathfinderExec.FeeEstimate, r.gas_consumed = s.gas_consumed →
      r.gas_price = s.gas_price → r.overall_fee = s.overall_fee →
      V05.FeeEstimate.ofExecutor r = V05.FeeEstimate.ofExecutor s) := by
  refine ⟨?_, fun _ => rfl, ?_⟩
  · intro a b h1 h2 h3
    cases a
    cases b
    simp_all
  · intro r s h1 h2 h3
    simp [V05.FeeEstimate.ofExecutor, h1, h2, h3]

/-- C10 witness: the theorem applied at concrete estimates; the two raw
estimates differ in their data-gas figures and unit yet convert equally. -/
theorem v05_fee_estimate_projection_witness :
    V05.FeeEstimate.ofExecutor
        (PathfinderExec.FeeEstimate.mk 1 2 10 11 12 13 14 15 3
          PathfinderExec.PriceUnit.Wei) =
      V05.FeeEstimate.ofExecutor
        (PathfinderExec.FeeEstimate.mk 1 2 20 21 22 23 24 25 3
          PathfinderExec.PriceUnit.Fri) :=
  v05_fee_estimate_projection.2.2
    (PathfinderExec.FeeEstimate.mk 1 2 10 11 12 13 14 15 3
      PathfinderExec.PriceUnit.Wei)
    (PathfinderExec.FeeEstimate.mk 1 2 20 21 22 23 24 25 3
      PathfinderExec.PriceUnit.Fri) rfl rfl rfl

/-- Fail-fast mapping preserves length on success. -/
theorem mapBatch_length (env : Env) :
    ∀ (l : List BroadcastedTransaction) (txs : List ExecutableTx),
      mapBatch env l = Except.ok txs → txs.length = l.length := by
  intro l
  induction l with
  | nil =>
    intro txs h
    simp only [mapBatch] at h
    cases h
    rfl
  | cons tx rest ih =>
    intro txs h
    unfold mapBatch at h
    split at h
    · cases h
    · split at h
      · cases h
      · cases h
        rename_i ts hts
        simp [ih ts hts]

/-- On success the i-th mapped transaction comes from the i-th request
element. -/
theorem mapBatch_get (env : Env) :
    ∀ (l : List BroadcastedTransaction) (txs : List ExecutableTx),
      mapBatch env l = Except.ok txs →
      ∀ (i : Nat) (hi : i < l.length) (hi2 : i < txs.length),
        env.map_broadcasted_transaction (l.get ⟨i, hi⟩) env.chain_id =
          Except.ok (txs.get ⟨i, hi2⟩) := by
  intro l
  induction l with
  | nil =>
    intro txs h i hi hi2
    simp at hi
  | cons tx rest ih =>
    intro txs h i hi hi2
    unfold mapBatch at h
    split at h
    · cases h
    · split at h
      · cases h
      · cases h
        cases i with
        | zero => assumption
        | succ j =>
          simp only [List.length_cons] at hi hi2
          exact ih _ (by assumption) j (Nat.lt_of_succ_lt_succ hi)
            (Nat.lt_of_succ_lt_succ hi2)

/-- Indexing through `List.map`. -/
theorem list_get_map {α β : Type} (f : α → β) :
    ∀ (l : List α) (i : Nat) (hi : i < l.length) (hi2 : i < (l.map f).length),
      (l.map f).get ⟨i, hi2⟩ = f (l.get ⟨i, hi⟩) := by
  intro l
  induction l with
  | nil => intro i hi hi2; simp at hi
  | cons a as ih =>
    intro i hi hi2
    cases i with
    | zero => rfl
    | succ j =>
      exact ih j (Nat.lt_of_succ_lt_succ hi) (Nat.lt_of_succ_lt_succ hi2)

/-- Inversion of a successful worker run: the batch mapping and the engine
call both succeeded. -/
theorem worker_ok_inv (env : Env) (input : EstimateFeeInput)
    (result : List PathfinderExec.FeeEstimate)
    (h : (worker env input).1 = WorkerStep.ok result) :
    ∃ txs state, mapBatch env input.request = Except.ok txs ∧
      env.estimate state txs false true = Except.ok result := by
  unfold worker at h
  split at h
  · simp at h
  · split at h
    · simp at h
    · split at h
      · simp at h
      · simp at h
      · split at h
        · simp at h
        · dsimp only at h
          split at h
          · simp at h
          · simp at h
            subst h
            exact ⟨_, _, by assumption, by assumption⟩

/-- Inversion of a successful pipeline call: no panic, the worker succeeded,
and the output is the 1:1 image of the raw results. -/
theorem estimate_fee_ok_inv (env : Env) (input : EstimateFeeInput)
    (out : List V05.FeeEstimate) (h : estimate_fee env input = Except.ok out) :
    env.spawn_panic = none ∧
    ∃ result, (worker env input).1 = WorkerStep.ok result ∧
      out = result.map V05.FeeEstimate.ofExecutor := by
  unfold estimate_fee at h
  dsimp only at h
  cases hp : env.spawn_panic with
  | some m =>
    rw [hp] at h
    simp at h
  | none =>
    rw [hp] at h
    refine ⟨rfl, ?_⟩
    cases hw : (worker env input).1 with
    | ok r =>
      rw [hw] at h
      simp at h
      exact ⟨r, rfl, h.symm⟩
    | err e =>
      rw [hw] at h
      simp at h
    | panicked m =>
      rw [hw] at h
      simp at h

theorem engine_call_flags (env : Env) (input : EstimateFeeInput) :
    (worker env input).2.length ≤ 1 ∧
    ∀ c ∈ (worker env input).2,
      c.skip_validation = false ∧ c.skip_nonce_check = true ∧
      mapBatch env input.request = Except.ok c.transactions := by
  unfold worker
  split
  · simp
  · split
    · simp
    · split
      · simp
      · simp
      · split
        · simp
        · dsimp only
          split
          · refine ⟨by simp, ?_⟩
            intro c hc
            simp only [List.mem_singleton] at hc
            subst hc
            exact ⟨rfl, rfl, by assumption⟩
          · refine ⟨by simp, ?_⟩
            intro c hc
            simp only [List.mem_singleton] at hc
            subst hc
            exact ⟨rfl, rfl, by assumption⟩

theorem engine_skip_validation_cex :
    (worker envOk sampleInput).2.map EngineCall.skip_validation = [false] ∧
    (worker envOk sampleInput).2.map EngineCall.skip_nonce_check = [true] := by
  constructor <;> rfl

theorem engine_call_flags_witness :
    sampleCall.skip_validation = false ∧ sampleCall.skip_nonce_check = true ∧
    mapBatch envOk sampleInput.request = Except.ok sampleCall.transactions :=
  (engine_call_flags envOk sampleInput).2 sampleCall (by decide)

theorem estimate_fee_order_preservation (env : Env) (input : EstimateFeeInput) :
    (∀ out, estimate_fee env input = Except.ok out →
      (∀ s txs b1 b2 r, env.estimate s txs b1 b2 = Except.ok r →
        r.length = txs.length) →
      ∃ txs state raws,
        mapBatch env input.request = Except.ok txs ∧
        txs.length = input.request.length ∧
        (∀ (i : Nat) (hi : i < input.request.length) (hi2 : i < txs.length),
          env.map_broadcasted_transaction (input.request.get ⟨i, hi⟩) env.chain_id
            = Except.ok (txs.get ⟨i, hi2⟩)) ∧
        env.estimate state txs false true = Except.ok raws ∧
        raws.length = input.request.length ∧
        out = raws.map V05.FeeEstimate.ofExecutor ∧
        out.length = input.request.length ∧
        (∀ (i : Nat) (hi : i < raws.length) (hi2 : i < out.length),
          out.get ⟨i, hi2⟩ = V05.FeeEstimate.ofExecutor (raws.get ⟨i, hi⟩))) ∧
    (∀ e, mapBatch env input.request = Except.error e →
      ∃ e2, estimate_fee env input = Except.error e2) := by
  constructor
  · intro out hok hengine
    obtain ⟨hp, result, hw, hout⟩ := estimate_fee_ok_inv env input out hok
    obtain ⟨txs, state, hm, he⟩ := worker_ok_inv env input result hw
    have hlen : txs.length = input.request.length := mapBatch_length env _ _ hm
    have hrlen : result.length = txs.length := hengine _ _ _ _ _ he
    refine ⟨txs, state, result, hm, hlen, mapBatch_get env _ _ hm, he,
      hrlen.trans hlen, hout, ?_, ?_⟩
    · subst hout
      simp [List.length_map, hrlen, hlen]
    · subst hout
      intro i hi hi2
      exact list_get_map V05.FeeEstimate.ofExecutor result i hi
        (by simpa using hi2)
  · intro e hm
    cases hfe : estimate_fee env input with
    | error e2 => exact ⟨e2, rfl⟩
    | ok out =>
      obtain ⟨hp, result, hw, hout⟩ := estimate_fee_ok_inv env input out hfe
      obtain ⟨txs, state, hm2, he⟩ := worker_ok_inv env input result hw
      rw [hm] at hm2
      cases hm2

theorem estimate_fee_order_preservation_witness :
    (∃ txs state raws,
      mapBatch envOk sampleInput.request = Except.ok txs ∧
      txs.length = sampleInput.request.length ∧
      (∀ (i : Nat) (hi : i < sampleInput.request.length) (hi2 : i < txs.length),
        envOk.map_broadcasted_transaction (sampleInput.request.get ⟨i, hi⟩)
          envOk.chain_id = Except.ok (txs.get ⟨i, hi2⟩)) ∧
      envOk.estimate state txs false true = Except.ok raws ∧
      raws.length = sampleInput.request.length ∧
      [V05.FeeEstimate.mk 1 2 9] = raws.map V05.FeeEstimate.ofExecutor ∧
      ([V05.FeeEstimate.mk 1 2 9] : List V05.FeeEstimate).length =
        sampleInput.request.length ∧
      (∀ (i : Nat) (hi : i < raws.length)
          (hi2 : i < ([V05.FeeEstimate.mk 1 2 9] : List V05.FeeEstimate).length),
        ([V05.FeeEstimate.mk 1 2 9] : List V05.FeeEstimate).get ⟨i, hi2⟩ =
          V05.FeeEstimate.ofExecutor (raws.get ⟨i, hi⟩))) ∧
    (∃ e2, estimate_fee envMapFail sampleInput = Except.error e2) :=
  ⟨(estimate_fee_order_preservation envOk sampleInput).1
      [V05.FeeEstimate.mk 1 2 9] (by rfl)
      (by
        intro s txs b1 b2 r h
        have h2 : Except.ok (txs.map fun _ => sampleRawFee) = Except.ok r := h
        injection h2 with h3
        subst h3
        simp),
    (estimate_fee_order_preservation envMapFail sampleInput).2
      (EstimateFeeError.Custom "unsupported transaction variant") (by rfl)⟩

theorem block_resolution_spec (env : Env) (db : DbTx) :
    (∀ pd, env.pending_get db = Except.ok pd →
      resolve_block env db BlockId.Pending =
        WorkerStep.ok (pd.header, some pd.state_update)) ∧
    (∀ b sb, blockIdTryIntoStorage b = some sb →
      (env.block_header db sb = Except.ok none →
        resolve_block env db b = WorkerStep.err EstimateFeeError.BlockNotFound) ∧
      (∀ hd, env.block_header db sb = Except.ok (some hd) →
        resolve_block env db b = WorkerStep.ok (hd, none))) ∧
    (∀ (input : EstimateFeeInput) (conn : DbConnection) (e : EstimateFeeError),
      env.spawn_panic = none → env.connection = Except.ok conn →
      env.transaction conn = Except.ok db →
      resolve_block env db input.block_id = WorkerStep.err e →
      estimate_fee env input = Except.error e) ∧
    (∀ (input : EstimateFeeInput) (conn : DbConnection) (header : Header)
        (pending : Option StateUpdate),
      env.connection = Except.ok conn → env.transaction conn = Except.ok db →
      resolve_block env db input.block_id = WorkerStep.ok (header, pending) →
      ∀ c ∈ (worker env input).2,
        c.state.header = header ∧ c.state.pending = pending) := by
  refine ⟨?_, ?_, ?_, ?_⟩
  · intro pd hpd
    simp [resolve_block, hpd]
  · intro b sb hsb
    cases b with
    | Pending => cases hsb
    | Number n =>
      simp only [blockIdTryIntoStorage] at hsb
      cases hsb
      constructor
      · intro hh
        simp [resolve_block, blockIdTryIntoStorage, hh]
      · intro hd hh
        simp [resolve_block, blockIdTryIntoStorage, hh]
    | Hash hsh =>
      simp only [blockIdTryIntoStorage] at hsb
      cases hsb
      constructor
      · intro hh
        simp [resolve_block, blockIdTryIntoStorage, hh]
      · intro hd hh
        simp [resolve_block, blockIdTryIntoStorage, hh]
    | Latest =>
      simp only [blockIdTryIntoStorage] at hsb
      cases hsb
      constructor
      · intro hh
        simp [resolve_block, blockIdTryIntoStorage, hh]
      · intro hd hh
        simp [resolve_block, blockIdTryIntoStorage, hh]
  · intro input conn e hp hc ht hres
    simp [estimate_fee, worker, hp, hc, ht, hres]
  · intro input conn header pending hc ht hres c hcmem
    simp only [worker, hc, ht, hres] at hcmem
    split at hcmem
    · simp at hcmem
    · split at hcmem
      · simp only [List.mem_singleton] at hcmem
        subst hcmem
        exact ⟨rfl, rfl⟩
      · simp only [List.mem_singleton] at hcmem
        subst hcmem
        exact ⟨rfl, rfl⟩

theorem block_resolution_spec_witness :
    estimate_fee envNoHeader sampleInput =
      Except.error EstimateFeeError.BlockNotFound :=
  (block_resolution_spec envNoHeader (DbTx.mk 1)).2.2.1 sampleInput
    (DbConnection.mk 0) EstimateFeeError.BlockNotFound rfl rfl rfl rfl

theorem spawn_panic_internal (env : Env) (input : EstimateFeeInput) (m : String)
    (hp : env.spawn_panic = some m) :
    estimate_fee env input =
      Except.error (EstimateFeeError.Internal
        (anyhowContext "Executing transaction" m)) := by
  simp [estimate_fee, hp, EstimateFeeError.ofAnyhow]

theorem spawn_panic_internal_witness :
    estimate_fee envPanics sampleInput =
      Except.error (EstimateFeeError.Internal
        (anyhowContext "Executing transaction" "worker task panicked")) :=
  spawn_panic_internal envPanics sampleInput "worker task panicked" rfl

theorem decoder_positional_named_equiv :
    (∀ r b : Json, decodeEstimateFeeInput (Json.arr [r, b]) =
      decodeEstimateFeeInput (Json.obj [("request", r), ("block_id", b)])) ∧
    decodeEstimateFeeInput scenarioPositional = Except.ok scenarioExpected ∧
    decodeEstimateFeeInput scenarioNamed = Except.ok scenarioExpected ∧
    versionWithoutQueryBit (2 ^ 128 + 1) = 1 :=
  ⟨fun r b => rfl, by rfl, by rfl, by rfl⟩

theorem decoder_unknown_field_rejected (fields : List (String × Json))
    (name : String) (v : Json) (hmem : (name, v) ∈ fields)
    (h1 : name ≠ "request") (h2 : name ≠ "block_id") :
    decodeEstimateFeeInput (Json.obj fields) = Except.error "unknown field" := by
  have hall : (fields.all fun f => f.1 == "request" || f.1 == "block_id") = false := by
    cases hb : fields.all fun f => f.1 == "request" || f.1 == "block_id" with
    | false => rfl
    | true =>
      exfalso
      have hx := List.all_eq_true.mp hb (name, v) hmem
      simp at hx
      tauto
  simp [decodeEstimateFeeInput, hall]

theorem decoder_unknown_field_rejected_witness :
    decodeEstimateFeeInput (Json.obj [("extra", Json.null)]) =
      Except.error "unknown field" :=
  decoder_unknown_field_rejected [("extra", Json.null)] "extra" Json.null
    (List.mem_singleton.mpr rfl) (by decide) (by decide)
